import Mathlib

/-!
Verification of the tennis scoring engine in `src/lib/tennis.ts`,
`src/lib/tennis.utils.ts` and `src/lib/tennis.types.ts` of the
`ts-tennis-2026` repository.

The repository concatenates several drafts of the scoring module.  The
primary draft (the first document of `tennis.ts`, together with the helpers
of `tennis.utils.ts`) is embedded at top level; the third draft's
set/match transition (`scoreGame` and its private helpers) is embedded in
the `Draft3` namespace.  All definitions are direct translations of the
TypeScript source; JavaScript numbers holding game/point counts are
non-negative integers by the zod schemas (`z.number().int().nonnegative()`),
so they are embedded as `Nat`, with subtractions and absolute differences
carried out in `Int` exactly as JavaScript arithmetic does.
-/

/-- The pre-deuce point values, `PreDeucePoint` in `tennis.types.ts`. -/
inductive PreDeucePoint
  | LOVE
  | FIFTEEN
  | THIRTY
  | FORTY
deriving DecidableEq, Repr, Fintype

/-- The two players, `Player` in `tennis.types.ts`. -/
inductive Player
  | Player1
  | Player2
deriving DecidableEq, Repr, Fintype

/-- A pair of non-negative counts, `ScorePair` in `tennis.types.ts`. -/
abbrev ScorePair := Nat × Nat

/-- The tagged-union game state, `GameState` in `tennis.types.ts`. -/
inductive GameState
  | Normal (player1Point player2Point : PreDeucePoint)
  | Deuce
  | Advantage (playerAtAdvantage : Player)
  | Tiebreak (p1Points p2Points : Nat)
  | GameOver (gameWinner : Player)
deriving DecidableEq, Repr

/-- The full match snapshot, `MatchState` in `tennis.types.ts`.  The zod
schema fixes `sets` and `tiebreaks` to length-3 tuples, constrains
`currentSet` to an integer in `[1, 3]`, and makes `matchWinner` optional. -/
structure MatchState where
  sets : ScorePair × ScorePair × ScorePair
  tiebreaks : Option ScorePair × Option ScorePair × Option ScorePair
  currentGame : GameState
  currentSet : Nat
  matchWinner : Option Player
deriving DecidableEq, Repr

/-- The outcome tag `GameWinnerOrContinue` in `tennis.types.ts`. -/
inductive GameWinnerOrContinue
  | Player1Wins
  | Player2Wins
  | ContinueGame
deriving DecidableEq, Repr

/-- The `nextPoint` increment table of `tennis.types.ts`:
LOVE to FIFTEEN to THIRTY to FORTY, with FORTY staying at FORTY. -/
def nextPoint : PreDeucePoint → PreDeucePoint
  | .LOVE => .FIFTEEN
  | .FIFTEEN => .THIRTY
  | .THIRTY => .FORTY
  | .FORTY => .FORTY

/-- `choosePointOutcome` of `tennis.utils.ts` (lines 20-37): the point ends
the game exactly when the scorer is at FORTY and the opponent is not. -/
def choosePointOutcome (player1Point player2Point : PreDeucePoint)
    (pointWinner : Player) : GameWinnerOrContinue :=
  match pointWinner with
  | .Player1 =>
      if player1Point = .FORTY ∧ player2Point ≠ .FORTY then .Player1Wins
      else .ContinueGame
  | .Player2 =>
      if player2Point = .FORTY ∧ player1Point ≠ .FORTY then .Player2Wins
      else .ContinueGame

/-- `advanceNormalGame` of `tennis.utils.ts` (lines 42-67): advance the
scorer's point via `nextPoint`, escaping to Deuce when the advanced point
is FORTY and the opponent is already at FORTY. -/
def advanceNormalGame (player1Point player2Point : PreDeucePoint)
    (pointWinner : Player) : GameState :=
  match pointWinner with
  | .Player1 =>
      if nextPoint player1Point = .FORTY ∧ player2Point = .FORTY then .Deuce
      else .Normal (nextPoint player1Point) player2Point
  | .Player2 =>
      if nextPoint player2Point = .FORTY ∧ player1Point = .FORTY then .Deuce
      else .Normal player1Point (nextPoint player2Point)

/-- `updateGameState` of `tennis.utils.ts` (lines 72-102): the core game
transition.  The first draft of `tennis.ts` inlines textually identical
copies of this logic inside `scorePoint`. -/
def updateGameState (game : GameState) (pointWinner : Player) : GameState :=
  match game with
  | .Normal player1Point player2Point =>
      match choosePointOutcome player1Point player2Point pointWinner with
      | .Player1Wins => .GameOver .Player1
      | .Player2Wins => .GameOver .Player2
      | .ContinueGame => advanceNormalGame player1Point player2Point pointWinner
  | .Deuce => .Advantage pointWinner
  | .Advantage playerAtAdvantage =>
      if playerAtAdvantage = pointWinner then .GameOver pointWinner
      else .Deuce
  | .Tiebreak p1Points p2Points =>
      let p1 := p1Points + (if pointWinner = .Player1 then 1 else 0)
      let p2 := p2Points + (if pointWinner = .Player2 then 1 else 0)
      if (7 ≤ p1 ∨ 7 ≤ p2) ∧ 2 ≤ ((p1 : Int) - (p2 : Int)).natAbs then
        .GameOver (if p2 < p1 then .Player1 else .Player2)
      else .Tiebreak p1 p2
  | .GameOver gameWinner => .GameOver gameWinner

/-- C4: for every `Tiebreak` state and point winner, the transition adds one
to the winner's count and ends the game, for the player with the higher
count, exactly when either updated count is at least 7 and the counts differ
by at least 2; otherwise it stays a `Tiebreak` with the updated counts. -/
theorem updateGameState_tiebreak_characterization (p1Points p2Points : Nat)
    (pointWinner : Player) :
    updateGameState (.Tiebreak p1Points p2Points) pointWinner =
      (let p1 := p1Points + (if pointWinner = .Player1 then 1 else 0)
       let p2 := p2Points + (if pointWinner = .Player2 then 1 else 0)
       if (7 ≤ p1 ∨ 7 ≤ p2) ∧ (p1 + 2 ≤ p2 ∨ p2 + 2 ≤ p1) then
         .GameOver (if p2 < p1 then .Player1 else .Player2)
       else .Tiebreak p1 p2) := by
  cases pointWinner <;>
    · simp only [updateGameState]
      split_ifs <;> first | rfl | (exfalso; omega)

/-- C6: for every `Normal` state, the transition ends the game for the
scorer exactly when their point is FORTY and the opponent's is not;
otherwise it advances the scorer's point along LOVE, FIFTEEN, THIRTY,
FORTY, going to `Deuce` when both points are then FORTY and otherwise
staying `Normal` with the opponent's point unchanged. -/
theorem updateGameState_normal_characterization
    (player1Point player2Point : PreDeucePoint) (pointWinner : Player) :
    updateGameState (.Normal player1Point player2Point) pointWinner =
      (match pointWinner with
       | .Player1 =>
           if player1Point = .FORTY ∧ player2Point ≠ .FORTY then
             .GameOver .Player1
           else if nextPoint player1Point = .FORTY ∧ player2Point = .FORTY then
             .Deuce
           else .Normal (nextPoint player1Point) player2Point
       | .Player2 =>
           if player2Point = .FORTY ∧ player1Point ≠ .FORTY then
             .GameOver .Player2
           else if nextPoint player2Point = .FORTY ∧ player1Point = .FORTY then
             .Deuce
           else .Normal player1Point (nextPoint player2Point)) := by
  cases player1Point <;> cases player2Point <;> cases pointWinner <;> rfl

/-- C7: from `Deuce` any point winner gains `Advantage`; from `Advantage`
the holder's point ends the game for them while the other player's point
returns to `Deuce`; and `GameOver` is a fixed point of the transition. -/
theorem updateGameState_deuce_advantage_gameover :
    (∀ w : Player, updateGameState .Deuce w = .Advantage w)
    ∧ (∀ a w : Player, updateGameState (.Advantage a) w =
        if w = a then .GameOver a else .Deuce)
    ∧ (∀ g w : Player, updateGameState (.GameOver g) w = .GameOver g) := by
  refine ⟨fun w => rfl, fun a w => ?_, fun g w => rfl⟩
  cases a <;> cases w <;> rfl

/-- C8 counterexample: fed the schema-forbidden state
`Normal FORTY FORTY`, the engine does not fail; it silently patches the
state into `Deuce`. -/
theorem updateGameState_forty_forty_silently_deuce :
    updateGameState (.Normal .FORTY .FORTY) .Player1 = .Deuce := by
  rfl

/-- C8 amended: on a `Normal` game with both points at FORTY, for either
point winner `choosePointOutcome` reports that play continues and the
transition returns `Deuce`; no assertion failure is raised, the transition
being a total function. -/
theorem updateGameState_forty_forty_to_deuce (w : Player) :
    choosePointOutcome .FORTY .FORTY w = .ContinueGame
    ∧ updateGameState (.Normal .FORTY .FORTY) w = .Deuce := by
  cases w <;> exact ⟨rfl, rfl⟩

/-- JavaScript `xs.map((x, i) => i === j ? f(x) : x)` over a length-3 tuple:
apply `f` at index `j` (0-based) and keep the other slots; an out-of-range
`j` leaves the tuple unchanged, as in the source. -/
def mapAt3 (t : α × α × α) (j : Nat) (f : α → α) : α × α × α :=
  (if 0 = j then f t.1 else t.1,
   if 1 = j then f t.2.1 else t.2.1,
   if 2 = j then f t.2.2 else t.2.2)

/-- JavaScript `xs.map((x, i) => i === j ? v : x)` over a length-3 tuple:
replace index `j` (0-based) by `v` and keep the other slots. -/
def setAt3 (t : α × α × α) (j : Nat) (v : α) : α × α × α :=
  (if 0 = j then v else t.1,
   if 1 = j then v else t.2.1,
   if 2 = j then v else t.2.2)

/-- JavaScript `sets[i]` over the length-3 `sets` tuple.  The zod schema
keeps `currentSet` in `[1, 3]`, so the index `currentSet - 1` is always in
range in schema-valid states; the `(0, 0)` result for an out-of-range index
is never reached from them. -/
def getSet3 (t : ScorePair × ScorePair × ScorePair) (i : Nat) : ScorePair :=
  if i = 0 then t.1 else if i = 1 then t.2.1 else if i = 2 then t.2.2
  else (0, 0)

/-- `updateSetWithGameWinner` of `tennis.utils.ts` (lines 107-110). -/
def updateSetWithGameWinner (set : ScorePair) (winner : Player) : ScorePair :=
  match set, winner with
  | (p1, p2), .Player1 => (p1 + 1, p2)
  | (p1, p2), .Player2 => (p1, p2 + 1)

/-- `setWinner` of `tennis.utils.ts` (lines 115-121); the subtractions are
JavaScript number subtractions, embedded in `Int`. -/
def setWinner : ScorePair → Option Player
  | (p1, p2) =>
    if 6 ≤ p1 ∧ 2 ≤ (p1 : Int) - (p2 : Int) then some .Player1
    else if 6 ≤ p2 ∧ 2 ≤ (p2 : Int) - (p1 : Int) then some .Player2
    else if p1 = 7 ∧ p2 = 6 then some .Player1
    else if p2 = 7 ∧ p1 = 6 then some .Player2
    else none

/-- `didPlayerWinMatch` of `tennis.utils.ts` (lines 130-135), applied as in
the source to the three `sets` pairs: map `setWinner` over them, count the
wins per player, and report whoever has at least 2. -/
def didPlayerWinMatch : ScorePair × ScorePair × ScorePair → Option Player
  | (s0, s1, s2) =>
    let results := [setWinner s0, setWinner s1, setWinner s2]
    let p1SetWins := (results.filter (fun r => r == some Player.Player1)).length
    let p2SetWins := (results.filter (fun r => r == some Player.Player2)).length
    if 2 ≤ p1SetWins then some .Player1
    else if 2 ≤ p2SetWins then some .Player2
    else none

/-- `startGame` of `tennis.ts` (lines 157-163): a fresh `Normal` game at
love-love (the zod parse of the literal). -/
def startGame : GameState := .Normal .LOVE .LOVE

/-- `startMatch` of `tennis.ts` (lines 199-210). -/
def startMatch : MatchState :=
  { sets := ((0, 0), (0, 0), (0, 0))
    tiebreaks := (none, none, none)
    currentGame := startGame
    currentSet := 1
    matchWinner := none }

/-- `updateSetAfterGame` of `tennis.ts` (lines 168-196, the first draft):
add the game to the current set, recompute the match winner over all three
sets, and advance `currentSet` only when the set has a winner, the match
winner is absent, and `currentSet < 3`. -/
def updateSetAfterGame (m : MatchState) (winner : Player) : MatchState :=
  let setIndex := m.currentSet - 1
  let updatedSets := mapAt3 m.sets setIndex
    (fun set => updateSetWithGameWinner set winner)
  let thisSet := getSet3 updatedSets setIndex
  let maybeSetWinner := setWinner thisSet
  let maybeMatchWinner := didPlayerWinMatch updatedSets
  let nextSet :=
    if maybeSetWinner.isSome ∧ maybeMatchWinner = none ∧ m.currentSet < 3
    then m.currentSet + 1 else m.currentSet
  { m with sets := updatedSets, currentSet := nextSet,
           matchWinner := maybeMatchWinner }

/-- `scorePoint` of `tennis.ts` (lines 28-154, the first draft).  Its
inlined `choosePointOutcome` and `advanceNormalGame` closures and its
game-state dispatch are textually identical to `updateGameState` of
`tennis.utils.ts`, so the embedding reuses `updateGameState`. -/
def scorePoint (state : MatchState) (pointWinner : Player) : MatchState :=
  match state.matchWinner with
  | some _ => state
  | none =>
    match updateGameState state.currentGame pointWinner with
    | .GameOver gameWinner =>
        let updatedMatch := updateSetAfterGame state gameWinner
        let setIndex := state.currentSet - 1
        match state.currentGame with
        | .Tiebreak p1Points p2Points =>
            let finalTiebreakScore : ScorePair :=
              (p1Points + (if gameWinner = .Player1 then 1 else 0),
               p2Points + (if gameWinner = .Player2 then 1 else 0))
            { updatedMatch with
              tiebreaks :=
                setAt3 updatedMatch.tiebreaks setIndex (some finalTiebreakScore),
              currentGame := startGame }
        | _ =>
            let currentSetGames := getSet3 updatedMatch.sets setIndex
            if currentSetGames.1 = 6 ∧ currentSetGames.2 = 6 then
              { updatedMatch with currentGame := .Tiebreak 0 0 }
            else
              { updatedMatch with currentGame := startGame }
    | newGameState => { state with currentGame := newGameState }

/-- `finalizeTiebreak` of `tennis.utils.ts` (lines 150-171): when the
current game is a tiebreak, record its final score (the game winner's count
plus one) into the `setIndex` slot of `tiebreaks` and start a fresh game;
otherwise return the match unchanged. -/
def finalizeTiebreak (m : MatchState) (gameWinner : Player)
    (setIndex : Nat) : MatchState :=
  match m.currentGame with
  | .Tiebreak p1Points p2Points =>
      let finalScore : ScorePair :=
        (p1Points + (if gameWinner = .Player1 then 1 else 0),
         p2Points + (if gameWinner = .Player2 then 1 else 0))
      { m with
        tiebreaks := setAt3 m.tiebreaks setIndex (some finalScore),
        currentGame := startGame }
  | _ => m

/-- JavaScript `state.currentGame.kind === "Tiebreak"`. -/
def kindIsTiebreak : GameState → Bool
  | .Tiebreak _ _ => true
  | _ => false

namespace Draft3

/-- The private `didPlayerWinSet` helper of the third draft of `tennis.ts`
(lines 554-563): the same set-winner rule, as a boolean per player. -/
def didPlayerWinSet (p1 p2 : Nat) (player : Player) : Bool :=
  match player with
  | .Player1 =>
      (decide (6 ≤ p1) && decide (2 ≤ (p1 : Int) - (p2 : Int)))
        || (decide (p1 = 7) && decide (p2 = 6))
  | .Player2 =>
      (decide (6 ≤ p2) && decide (2 ≤ (p2 : Int) - (p1 : Int)))
        || (decide (p2 = 7) && decide (p1 = 6))

/-- The private `didPlayerWinMatch` helper of the third draft of `tennis.ts`
(lines 572-582): reduce over the three sets counting set wins per player. -/
def didPlayerWinMatch (sets : ScorePair × ScorePair × ScorePair) :
    Option Player :=
  let counts :=
    [sets.1, sets.2.1, sets.2.2].foldl
      (fun acc g =>
        (acc.1 + (if didPlayerWinSet g.1 g.2 .Player1 then 1 else 0),
         acc.2 + (if didPlayerWinSet g.1 g.2 .Player2 then 1 else 0)))
      (0, 0)
  if 2 ≤ counts.1 then some .Player1
  else if 2 ≤ counts.2 then some .Player2
  else none

/-- `scoreGame` of the third draft of `tennis.ts` (lines 588-617): add the
game to the current set and advance `currentSet` whenever the set is over
and `currentSet < 3`, regardless of whether the match is now decided. -/
def scoreGame (m : MatchState) (winner : Player) : MatchState :=
  let setIndex := m.currentSet - 1
  let currentSetGames :=
    updateSetWithGameWinner (getSet3 m.sets setIndex) winner
  let updatedSets := setAt3 m.sets setIndex currentSetGames
  let setIsOver :=
    didPlayerWinSet currentSetGames.1 currentSetGames.2 .Player1
      || didPlayerWinSet currentSetGames.1 currentSetGames.2 .Player2
  let nextSet :=
    if setIsOver ∧ m.currentSet < 3 then m.currentSet + 1 else m.currentSet
  { m with sets := updatedSets, currentSet := nextSet,
           matchWinner := didPlayerWinMatch updatedSets }

end Draft3

/-- The Elm-style message type `Msg` of `tennis.types.ts` (lines 81-89). -/
inductive Msg
  | PointScored (player : Player)
  | NewGame
  | NewMatch
deriving DecidableEq, Repr

/-- `update` of `tennis.ts` (lines 217-222): route `PointScored` to
`scorePoint`, `NewGame` to a current-game reset, `NewMatch` to
`startMatch`. -/
def update (state : MatchState) (msg : Msg) : MatchState :=
  match msg with
  | .PointScored player => scorePoint state player
  | .NewGame => { state with currentGame := startGame }
  | .NewMatch => startMatch

/-- A runtime event as it reaches the dispatch seam before any TypeScript
narrowing: a kind tag plus a player payload.  The payload is only read by
the `PointScored` handler, so carrying it on every event loses nothing. -/
structure RawMsg where
  kind : String
  player : Player
deriving DecidableEq, Repr

/-- Modelled from the spec: the behavior of `update` under the canary-js
`match` dispatcher, whose source is not vendored under `src/` but is quoted
in the repository README: it looks up `cases[msg.kind]`, falls back to a
`_` handler if present, and otherwise throws
`No handler for kind: ...`.  The `update` of `tennis.ts` (lines 217-222)
installs exactly the three handlers `PointScored`, `NewGame`, `NewMatch`
and no `_` fallback, so any other kind throws, modelled as `Except.error`. -/
def updateDispatch (state : MatchState) (msg : RawMsg) :
    Except String MatchState :=
  if msg.kind = "PointScored" then .ok (scorePoint state msg.player)
  else if msg.kind = "NewGame" then .ok { state with currentGame := startGame }
  else if msg.kind = "NewMatch" then .ok startMatch
  else .error ("No handler for kind: " ++ msg.kind)

/-- C2: a decided match is absorbing: whenever `matchWinner` is set,
`scorePoint` returns the input snapshot unchanged for any point winner. -/
theorem scorePoint_decided_match_noop (m : MatchState) (p w0 : Player)
    (h : m.matchWinner = some w0) : scorePoint m p = m := by
  unfold scorePoint
  rw [h]

/-- C2 witness: on a concrete decided snapshot, a further point returns the
identical snapshot. -/
theorem scorePoint_decided_match_noop_witness :
    scorePoint
        { sets := ((6, 0), (6, 0), (0, 0)), tiebreaks := (none, none, none),
          currentGame := .Normal .LOVE .LOVE, currentSet := 2,
          matchWinner := some .Player1 } .Player2 =
      { sets := ((6, 0), (6, 0), (0, 0)), tiebreaks := (none, none, none),
        currentGame := .Normal .LOVE .LOVE, currentSet := 2,
        matchWinner := some .Player1 } :=
  scorePoint_decided_match_noop _ .Player2 .Player1 rfl

/-- C10: `NewGame` resets `currentGame` to a fresh `Normal` game at
love-love and leaves `sets`, `tiebreaks`, `currentSet` and `matchWinner`
untouched, for every state, including states whose `matchWinner` is set. -/
theorem update_newGame_resets_game_frame (s : MatchState) :
    (update s .NewGame).currentGame = .Normal .LOVE .LOVE
    ∧ (update s .NewGame).sets = s.sets
    ∧ (update s .NewGame).tiebreaks = s.tiebreaks
    ∧ (update s .NewGame).currentSet = s.currentSet
    ∧ (update s .NewGame).matchWinner = s.matchWinner :=
  ⟨rfl, rfl, rfl, rfl, rfl⟩

/-- C9: an event whose kind is none of `PointScored`, `NewGame`, `NewMatch`
is rejected by the dispatch with an error, never silently ignored or
defaulted to the unchanged state. -/
theorem updateDispatch_unknown_kind_rejected (s : MatchState) (msg : RawMsg)
    (h1 : msg.kind ≠ "PointScored") (h2 : msg.kind ≠ "NewGame")
    (h3 : msg.kind ≠ "NewMatch") :
    updateDispatch s msg = .error ("No handler for kind: " ++ msg.kind) := by
  simp only [updateDispatch, if_neg h1, if_neg h2, if_neg h3]

/-- C9 witness: the concrete unknown kind `Undo` is rejected. -/
theorem updateDispatch_unknown_kind_rejected_witness :
    updateDispatch startMatch { kind := "Undo", player := .Player1 } =
      .error ("No handler for kind: " ++ "Undo") :=
  updateDispatch_unknown_kind_rejected startMatch
    { kind := "Undo", player := .Player1 } (by decide) (by decide) (by decide)

/-- C5: when the game that just ended was a `Tiebreak`, `scorePoint` writes
the final tiebreak score (the game winner's prior count plus one, the
loser's count unchanged) into the finished set's `tiebreaks` slot, leaves
the other slots as they were, and starts a fresh `Normal` game at
love-love; this holds whatever the updated set score is, so the finished
tiebreak is never re-routed into the 6-6 tiebreak-start branch.  The same
holds of the `finalizeTiebreak` helper at any slot index. -/
theorem scorePoint_tiebreak_finalization :
    (∀ (m : MatchState) (w gw : Player) (a b : Nat),
        m.matchWinner = none →
        m.currentGame = .Tiebreak a b →
        updateGameState m.currentGame w = .GameOver gw →
        (scorePoint m w).tiebreaks =
          setAt3 m.tiebreaks (m.currentSet - 1)
            (some (a + (if gw = .Player1 then 1 else 0),
                   b + (if gw = .Player2 then 1 else 0)))
        ∧ (scorePoint m w).currentGame = .Normal .LOVE .LOVE)
    ∧ (∀ (m : MatchState) (gw : Player) (i a b : Nat),
        m.currentGame = .Tiebreak a b →
        finalizeTiebreak m gw i =
          { m with
            tiebreaks := setAt3 m.tiebreaks i
              (some (a + (if gw = .Player1 then 1 else 0),
                     b + (if gw = .Player2 then 1 else 0))),
            currentGame := .Normal .LOVE .LOVE }) := by
  constructor
  · intro m w gw a b hmw hcg hgo
    rw [hcg] at hgo
    unfold scorePoint
    rw [hmw, hcg, hgo]
    exact ⟨rfl, rfl⟩
  · intro m gw i a b hcg
    unfold finalizeTiebreak
    rw [hcg]
    rfl

/-- C5 witness: a tiebreak at 6-5 won by Player1 is recorded as `(7, 5)` in
the first `tiebreaks` slot and a fresh `Normal` game starts. -/
theorem scorePoint_tiebreak_finalization_witness :
    (scorePoint
        { sets := ((6, 6), (0, 0), (0, 0)), tiebreaks := (none, none, none),
          currentGame := .Tiebreak 6 5, currentSet := 1,
          matchWinner := none } .Player1).tiebreaks =
      (some (7, 5), none, none)
    ∧ (scorePoint
        { sets := ((6, 6), (0, 0), (0, 0)), tiebreaks := (none, none, none),
          currentGame := .Tiebreak 6 5, currentSet := 1,
          matchWinner := none } .Player1).currentGame = .Normal .LOVE .LOVE := by
  have h := scorePoint_tiebreak_finalization.1
    { sets := ((6, 6), (0, 0), (0, 0)), tiebreaks := (none, none, none),
      currentGame := .Tiebreak 6 5, currentSet := 1, matchWinner := none }
    .Player1 .Player1 6 5 rfl rfl (by decide)
  exact ⟨h.1.trans (by decide), h.2⟩

/-- C3: `setWinner` awards the set to a player exactly when that player's
game count is at least 6 with a lead of at least 2, or stands at 7 against
6; in particular (6,0) through (6,4) end the set for the leader, (6,5) and
(6,6) do not, and (7,5) does.  Moreover, when a non-tiebreak game ends and
the updated current set stands at 6-6, `scorePoint` assigns no set winner
and makes the next game a fresh `Tiebreak` at 0-0. -/
theorem setWinner_rule_and_tiebreak_start :
    (∀ p1 p2 : Nat, setWinner (p1, p2) = some Player.Player1 ↔
        (6 ≤ p1 ∧ p2 + 2 ≤ p1) ∨ (p1 = 7 ∧ p2 = 6))
    ∧ (∀ p1 p2 : Nat, setWinner (p1, p2) = some Player.Player2 ↔
        (6 ≤ p2 ∧ p1 + 2 ≤ p2) ∨ (p2 = 7 ∧ p1 = 6))
    ∧ (setWinner (6, 0) = some .Player1 ∧ setWinner (6, 1) = some .Player1
        ∧ setWinner (6, 2) = some .Player1 ∧ setWinner (6, 3) = some .Player1
        ∧ setWinner (6, 4) = some .Player1 ∧ setWinner (6, 5) = none
        ∧ setWinner (7, 5) = some .Player1 ∧ setWinner (6, 6) = none)
    ∧ (∀ (m : MatchState) (w gw : Player),
        m.matchWinner = none →
        kindIsTiebreak m.currentGame = false →
        updateGameState m.currentGame w = .GameOver gw →
        getSet3 (updateSetAfterGame m gw).sets (m.currentSet - 1) = (6, 6) →
        (scorePoint m w).currentGame = .Tiebreak 0 0) := by
  refine ⟨?_, ?_, by decide, ?_⟩
  · intro p1 p2
    simp only [setWinner]
    split_ifs with h1 h2 h3 h4 <;> simp <;> omega
  · intro p1 p2
    simp only [setWinner]
    split_ifs with h1 h2 h3 h4 <;> simp <;> omega
  · intro m w gw hmw hkind hgo h66
    unfold scorePoint
    rw [hmw, hgo]
    cases hcg : m.currentGame
    case Tiebreak p1 p2 =>
      rw [hcg] at hkind
      simp only [kindIsTiebreak] at hkind
      exact Bool.noConfusion hkind
    all_goals simp only [h66]
    all_goals rfl

/-- C3 witness: a concrete non-tiebreak game that brings set 1 to 6-6
makes the next game a fresh tiebreak at 0-0. -/
theorem setWinner_rule_and_tiebreak_start_witness :
    (scorePoint
        { sets := ((5, 6), (0, 0), (0, 0)), tiebreaks := (none, none, none),
          currentGame := .Normal .FORTY .LOVE, currentSet := 1,
          matchWinner := none } .Player1).currentGame = .Tiebreak 0 0 :=
  setWinner_rule_and_tiebreak_start.2.2.2
    { sets := ((5, 6), (0, 0), (0, 0)), tiebreaks := (none, none, none),
      currentGame := .Normal .FORTY .LOVE, currentSet := 1,
      matchWinner := none } .Player1 .Player1 rfl rfl (by decide) (by decide)

/-- Comparing a generic choose-the-player-with-two-set-wins expression
against a two-or-more count, over the finitely many triples of per-set
results. -/
theorem winFromResults_iff : ∀ (r0 r1 r2 : Option Player) (p : Player),
    (if 2 ≤ ([r0, r1, r2].filter (fun r => r == some Player.Player1)).length
     then some Player.Player1
     else if 2 ≤ ([r0, r1, r2].filter (fun r => r == some Player.Player2)).length
     then some Player.Player2
     else none) = some p
    ↔ 2 ≤ ((if r0 = some p then 1 else 0) + (if r1 = some p then 1 else 0)
        + (if r2 = some p then 1 else 0)) := by
  decide

/-- The boolean set-winner test of the third draft agrees pointwise with
the optional `setWinner` of `tennis.utils.ts`. -/
theorem didPlayerWinSet_eq_decide (p1 p2 : Nat) (p : Player) :
    Draft3.didPlayerWinSet p1 p2 p = decide (setWinner (p1, p2) = some p) := by
  cases p <;>
  · simp only [Draft3.didPlayerWinSet, setWinner]
    split_ifs <;> simp <;> omega

/-- C1 amended: both set/match transitions set `matchWinner` to exactly the
player with at least 2 of the 3 sets under the set-winner rule (conjuncts
one and two give this reading of `didPlayerWinMatch` for either draft, and
conjuncts three and four show each transition stores it).
`updateSetAfterGame` advances `currentSet` by one exactly when the updated
current set has a winner, the match winner is absent, and
`currentSet < 3`; `scoreGame` of the third draft, however, advances
`currentSet` whenever the updated current set has a winner and
`currentSet < 3`, even when the match is thereby decided. -/
theorem setMatchTransition_matchWinner_currentSet :
    (∀ (a0 b0 a1 b1 a2 b2 : Nat) (p : Player),
        didPlayerWinMatch ((a0, b0), (a1, b1), (a2, b2)) = some p ↔
          2 ≤ ((if setWinner (a0, b0) = some p then 1 else 0)
            + (if setWinner (a1, b1) = some p then 1 else 0)
            + (if setWinner (a2, b2) = some p then 1 else 0)))
    ∧ (∀ (a0 b0 a1 b1 a2 b2 : Nat) (p : Player),
        Draft3.didPlayerWinMatch ((a0, b0), (a1, b1), (a2, b2)) = some p ↔
          2 ≤ ((if setWinner (a0, b0) = some p then 1 else 0)
            + (if setWinner (a1, b1) = some p then 1 else 0)
            + (if setWinner (a2, b2) = some p then 1 else 0)))
    ∧ (∀ (m : MatchState) (w : Player),
        (updateSetAfterGame m w).matchWinner =
            didPlayerWinMatch (updateSetAfterGame m w).sets
        ∧ (updateSetAfterGame m w).currentSet =
            (if (setWinner (getSet3 (updateSetAfterGame m w).sets
                    (m.currentSet - 1))).isSome
                ∧ didPlayerWinMatch (updateSetAfterGame m w).sets = none
                ∧ m.currentSet < 3
             then m.currentSet + 1 else m.currentSet))
    ∧ (∀ (m : MatchState) (w : Player),
        (Draft3.scoreGame m w).matchWinner =
            Draft3.didPlayerWinMatch (Draft3.scoreGame m w).sets
        ∧ (Draft3.scoreGame m w).currentSet =
            (if (Draft3.didPlayerWinSet
                    (updateSetWithGameWinner
                      (getSet3 m.sets (m.currentSet - 1)) w).1
                    (updateSetWithGameWinner
                      (getSet3 m.sets (m.currentSet - 1)) w).2 .Player1 = true
                  ∨ Draft3.didPlayerWinSet
                    (updateSetWithGameWinner
                      (getSet3 m.sets (m.currentSet - 1)) w).1
                    (updateSetWithGameWinner
                      (getSet3 m.sets (m.currentSet - 1)) w).2 .Player2 = true)
                ∧ m.currentSet < 3
             then m.currentSet + 1 else m.currentSet)) := by
  refine ⟨?_, ?_, ?_, ?_⟩
  · intro a0 b0 a1 b1 a2 b2 p
    have h := winFromResults_iff (setWinner (a0, b0)) (setWinner (a1, b1))
      (setWinner (a2, b2)) p
    simpa only [didPlayerWinMatch] using h
  · intro a0 b0 a1 b1 a2 b2 p
    simp only [Draft3.didPlayerWinMatch, List.foldl, didPlayerWinSet_eq_decide,
      decide_eq_true_eq]
    generalize setWinner (a0, b0) = r0
    generalize setWinner (a1, b1) = r1
    generalize setWinner (a2, b2) = r2
    revert p r0 r1 r2
    decide
  · intro m w
    exact ⟨rfl, rfl⟩
  · intro m w
    refine ⟨rfl, ?_⟩
    simp only [Draft3.scoreGame, Bool.or_eq_true]

/-- C1 counterexample: with Player1 having taken set 1 at 6-0 and leading
set 2 at 5-0, `scoreGame` applied to Player1's next game win declares the
match winner but still advances `currentSet` to 3, where the claim says it
stays at 2. -/
theorem scoreGame_clinch_set2_advances_currentSet :
    (Draft3.scoreGame
        { sets := ((6, 0), (5, 0), (0, 0)), tiebreaks := (none, none, none),
          currentGame := .Normal .LOVE .LOVE, currentSet := 2,
          matchWinner := none } .Player1).matchWinner = some .Player1
    ∧ (Draft3.scoreGame
        { sets := ((6, 0), (5, 0), (0, 0)), tiebreaks := (none, none, none),
          currentGame := .Normal .LOVE .LOVE, currentSet := 2,
          matchWinner := none } .Player1).currentSet = 3 := by
  decide
